import Mathlib

/-!
Verification of the `StellarPopulation` class from
`src/Notebooks/03.SimpleMean.ipynb` (the one piece of authored logic in the
repository), shallowly embedded in Lean.

The Python class holds a true `distance`; `generate(N=1000, rms_error=0.1)`
assigns `self.N`, `self.rms_error`, then draws
`self.d_obs = self.distance + (self.rms_error * self.distance) * np.random.randn(self.N)`
and `self.id = map(str, range(self.N))`; `estimate_mean_distance` reads the
wall clock, computes `np.mean(self.d_obs)`, reads the clock again, and
returns the mean together with the elapsed time in milliseconds.

Modelling choices, all taken from the source (Python 2 / NumPy semantics):
* Python floats are idealised as exact rationals, so every definition stays
  executable; the single place NumPy can produce a non-numeric value in this
  code, `np.mean` of an empty array, is modelled by the distinguished value
  `PyFloat.nan`.
* The external standard-normal source consumed by `np.random.randn` is an
  explicit deviate stream `z : ℕ → ℚ`; `randn(n)` reads its first `n`
  entries.  The wall clock is two explicit readings (seconds) passed to
  `estimate_mean_distance`.
* Python attributes that exist only after `generate` (`N`, `rms_error`,
  `d_obs`, `id`) are `Option` fields that start out `none`.
* Exceptions are explicit: `np.random.randn` raises `ValueError` when its
  dimension argument is negative (after `self.N` and `self.rms_error` were
  already assigned), and reading `self.d_obs` before any `generate` call
  raises `AttributeError`.  The class itself performs no validation and
  raises nothing of its own.
-/

/-- The Python exceptions that can actually escape the methods of
`StellarPopulation`: `AttributeError` from reading the unassigned
`self.d_obs`, and `ValueError` from `np.random.randn` on a negative
dimension.  The class defines no error types of its own. -/
inductive PyError where
  | attributeError : PyError
  | valueError : PyError
  deriving DecidableEq

/-- A NumPy floating-point result, idealised over `ℚ`; `nan` models the IEEE
NaN that `np.mean` returns on an empty array. -/
inductive PyFloat where
  | val : ℚ → PyFloat
  | nan : PyFloat
  deriving DecidableEq

/-- `np.random.randn(n)`: `n` draws from the external standard-normal
source, modelled as reading the first `n` entries of the deviate stream
`z`. -/
def npRandn (z : ℕ → ℚ) (n : ℕ) : List ℚ :=
  (List.range n).map z

/-- `np.mean`, idealised over `ℚ`: the sum of the entries divided by their
number; on an empty array NumPy returns NaN. -/
def npMean (xs : List ℚ) : PyFloat :=
  if xs.isEmpty then PyFloat.nan else PyFloat.val (xs.sum / xs.length)

/-- The `StellarPopulation` object.  `distance` is set by `__init__`; the
other four attributes are first assigned inside `generate` and are absent
(`none`) before it runs. -/
structure StellarPopulation where
  distance : ℚ
  N : Option ℤ := none
  rms_error : Option ℚ := none
  d_obs : Option (List ℚ) := none
  id : Option (List String) := none
  deriving DecidableEq

/-- `StellarPopulation.__init__(self, distance)`: stores the distance,
unvalidated, and nothing else. -/
def StellarPopulation.init (distance : ℚ) : StellarPopulation :=
  { distance := distance }

/-- `StellarPopulation.generate(self, N, rms_error)`: assigns `self.N` and
`self.rms_error`, then `self.d_obs = self.distance +
(self.rms_error * self.distance) * np.random.randn(self.N)` and
`self.id = map(str, range(self.N))`.  When `N` is negative,
`np.random.randn` raises `ValueError` after the first two assignments have
happened, so the pair holds the partially updated state and the exception;
on success the second component is `none` (Python returns `None`). -/
def StellarPopulation.generate (p : StellarPopulation) (z : ℕ → ℚ)
    (N : ℤ) (rms_error : ℚ) : StellarPopulation × Option PyError :=
  if N < 0 then
    ({ p with
        N := some N
        rms_error := some rms_error },
      some PyError.valueError)
  else
    ({ p with
        N := some N
        rms_error := some rms_error
        d_obs := some ((npRandn z N.toNat).map
          (fun zi => p.distance + (rms_error * p.distance) * zi))
        id := some ((List.range N.toNat).map (fun i => Nat.repr i)) },
      none)

/-- The default arguments written on the source's `def generate(self,
N=1000, rms_error=0.1)` line: a call with no arguments is
`generate(1000, 0.1)`. -/
def StellarPopulation.generate_default (p : StellarPopulation)
    (z : ℕ → ℚ) : StellarPopulation × Option PyError :=
  p.generate z 1000 0.1

/-- `StellarPopulation.estimate_mean_distance(self)`: reads the wall clock
(`tstart`), computes `np.mean(self.d_obs)`, reads the clock again (`tend`),
and returns the mean together with `(end - start) * 1e3` milliseconds.  The
clock readings are in seconds, supplied by the external timer.  Reading
`self.d_obs` on an object on which `generate` has never run raises
`AttributeError`.  The method never assigns to `self`, so the state is
returned unchanged. -/
def StellarPopulation.estimate_mean_distance (p : StellarPopulation)
    (tstart tend : ℚ) : StellarPopulation × Except PyError (PyFloat × ℚ) :=
  match p.d_obs with
  | none => (p, Except.error PyError.attributeError)
  | some xs => (p, Except.ok (npMean xs, (tend - tstart) * 1000))

/-! ### Decimal representation of the identifiers

`self.id = map(str, range(self.N))`: Python's `str` on a non-negative
integer is the decimal numeral, i.e. `Nat.repr`.  The lemmas below show
`Nat.repr` is injective, so the identifiers are pairwise distinct. -/

lemma toDigitsCore_eq_digits (fuel : ℕ) : ∀ (n : ℕ) (ds : List Char), 0 < n → n < fuel →
    Nat.toDigitsCore 10 fuel n ds = ((Nat.digits 10 n).map Nat.digitChar).reverse ++ ds := by
  induction fuel with
  | zero => intro n ds hn hf; omega
  | succ fuel ih =>
    intro n ds hn hf
    rw [Nat.toDigitsCore]
    by_cases h : n / 10 = 0
    · simp only [h, if_pos]
      rw [Nat.digits_def' (by norm_num : (1:ℕ) < 10) hn, h]
      simp
    · simp only [h, if_neg]
      have hlt : n / 10 < fuel := by
        have := Nat.div_lt_self hn (by norm_num : (1:ℕ) < 10)
        omega
      rw [ih (n / 10) _ (Nat.pos_of_ne_zero h) hlt]
      rw [Nat.digits_def' (by norm_num : (1:ℕ) < 10) hn]
      simp

lemma repr_eq_of_pos (n : ℕ) (hn : 0 < n) :
    Nat.repr n = (((Nat.digits 10 n).map Nat.digitChar).reverse).asString := by
  show (Nat.toDigits 10 n).asString = _
  rw [Nat.toDigits, toDigitsCore_eq_digits (n + 1) n [] hn (by omega)]
  simp

lemma asString_inj {l1 l2 : List Char} (h : l1.asString = l2.asString) : l1 = l2 := by
  simpa [List.asString] using congrArg String.data h

lemma digitChar_inj_lt (a b : ℕ) (ha : a < 10) (hb : b < 10)
    (h : Nat.digitChar a = Nat.digitChar b) : a = b := by
  interval_cases a <;> interval_cases b <;> first | rfl | (exfalso; revert h; decide)

lemma map_digitChar_inj : ∀ (l1 l2 : List ℕ), (∀ x ∈ l1, x < 10) → (∀ x ∈ l2, x < 10) →
    l1.map Nat.digitChar = l2.map Nat.digitChar → l1 = l2
  | [], [], _, _, _ => rfl
  | [], _ :: _, _, _, h => by simp at h
  | _ :: _, [], _, _, h => by simp at h
  | a :: l1, b :: l2, h1, h2, h => by
    simp only [List.map_cons, List.cons.injEq] at h
    have ha := h1 a (List.mem_cons_self a l1)
    have hb := h2 b (List.mem_cons_self b l2)
    have hab : a = b := digitChar_inj_lt a b ha hb h.1
    have tl : l1 = l2 := map_digitChar_inj l1 l2
      (fun x hx => h1 x (List.mem_cons_of_mem _ hx))
      (fun x hx => h2 x (List.mem_cons_of_mem _ hx)) h.2
    rw [hab, tl]

lemma repr_pos_ne_repr_zero (n : ℕ) (hn : 0 < n) : Nat.repr n ≠ Nat.repr 0 := by
  intro h
  rw [repr_eq_of_pos n hn] at h
  have h0 : Nat.repr 0 = List.asString [Nat.digitChar 0] := rfl
  rw [h0] at h
  have hrev : (List.map Nat.digitChar (Nat.digits 10 n)).reverse = [Nat.digitChar 0] :=
    asString_inj h
  have hmap : List.map Nat.digitChar (Nat.digits 10 n) = List.map Nat.digitChar [0] := by
    have := congrArg List.reverse hrev
    simpa using this
  have h2 : Nat.digits 10 n = [0] := map_digitChar_inj (Nat.digits 10 n) [0]
    (fun x hx => Nat.digits_lt_base (by norm_num) hx)
    (by intro x hx; simp at hx; omega) hmap
  have h3 := Nat.ofDigits_digits 10 n
  rw [h2] at h3
  simp [Nat.ofDigits] at h3
  omega

lemma nat_repr_injective : Function.Injective Nat.repr := by
  intro m n h
  rcases Nat.eq_zero_or_pos m with hm | hm <;> rcases Nat.eq_zero_or_pos n with hn | hn
  · omega
  · exact absurd (hm ▸ h).symm (repr_pos_ne_repr_zero n hn)
  · exact absurd (hn ▸ h) (repr_pos_ne_repr_zero m hm)
  · rw [repr_eq_of_pos m hm, repr_eq_of_pos n hn] at h
    have h2 := List.reverse_injective (asString_inj h)
    have h3 := map_digitChar_inj _ _
      (fun x hx => Nat.digits_lt_base (by norm_num) hx)
      (fun x hx => Nat.digits_lt_base (by norm_num) hx) h2
    exact Nat.digits.injective 10 h3

/-! ### Unfolding lemma for a successful `generate` call -/

lemma generate_nonneg_eq (p : StellarPopulation) (z : ℕ → ℚ) (N : ℤ) (r : ℚ)
    (hN : 0 ≤ N) :
    p.generate z N r =
      ({ p with
          N := some N
          rms_error := some r
          d_obs := some (((List.range N.toNat).map z).map
            (fun zi => p.distance + (r * p.distance) * zi))
          id := some ((List.range N.toNat).map (fun i => Nat.repr i)) },
        none) := by
  rw [StellarPopulation.generate, if_neg (by omega), npRandn]

/-! ### Claim theorems -/

/-- C1: for every distance > 0, integer N ≥ 0 and rms fractional error ≥ 0,
`generate(N, rms_fractional_error)` succeeds and leaves exactly N observed
distances and exactly N identifiers, the identifier at position i being the
decimal string of i (hence all identifiers are distinct, and the two
sequences have equal length and correspond index-for-index).  The prior
state `p` is arbitrary, so this also covers a later call that replaces an
earlier sample. -/
theorem generate_produces_N_indexed_observations
    (p : StellarPopulation) (z : ℕ → ℚ) (N : ℤ) (r : ℚ)
    (hd : 0 < p.distance) (hN : 0 ≤ N) (hr : 0 ≤ r) :
    ∃ obs ids,
      (p.generate z N r).1.d_obs = some obs ∧
      (p.generate z N r).1.id = some ids ∧
      (p.generate z N r).2 = none ∧
      (obs.length : ℤ) = N ∧
      (ids.length : ℤ) = N ∧
      (∀ (i : ℕ) (hi : i < ids.length), ids[i] = Nat.repr i) ∧
      ids.Nodup := by
  rw [generate_nonneg_eq p z N r hN]
  refine ⟨_, _, rfl, rfl, rfl, ?_, ?_, ?_, ?_⟩
  · simp [Int.toNat_of_nonneg hN]
  · simp [Int.toNat_of_nonneg hN]
  · intro i hi
    simp
  · exact (List.nodup_range _).map nat_repr_injective

/-- Witness for C1 at distance 3, the all-zero deviate stream, N = 2 and
rms error 1/10. -/
theorem generate_produces_N_indexed_observations_witness :
    0 < (StellarPopulation.init 3).distance ∧ (0 : ℤ) ≤ 2 ∧ (0 : ℚ) ≤ 1/10 ∧
    (∃ obs ids,
      ((StellarPopulation.init 3).generate (fun _ => 0) 2 (1/10)).1.d_obs = some obs ∧
      ((StellarPopulation.init 3).generate (fun _ => 0) 2 (1/10)).1.id = some ids ∧
      ((StellarPopulation.init 3).generate (fun _ => 0) 2 (1/10)).2 = none ∧
      (obs.length : ℤ) = 2 ∧
      (ids.length : ℤ) = 2 ∧
      (∀ (i : ℕ) (hi : i < ids.length), ids[i] = Nat.repr i) ∧
      ids.Nodup) :=
  ⟨by norm_num [StellarPopulation.init], by norm_num, by norm_num,
    generate_produces_N_indexed_observations (StellarPopulation.init 3) (fun _ => 0) 2 (1/10)
      (by norm_num [StellarPopulation.init]) (by norm_num) (by norm_num)⟩

/-- C2: after a generate call with a non-empty sample, estimate_mean_distance
returns the arithmetic mean (sum over N divided by N) as its first component
and the elapsed wall-clock time in milliseconds as its second. -/
theorem estimate_mean_returns_mean_and_elapsed_ms
    (p : StellarPopulation) (z : ℕ → ℚ) (N : ℤ) (r : ℚ) (t0 t1 : ℚ)
    (hN : 0 < N) :
    ∃ xs : List ℚ, xs ≠ [] ∧
      (p.generate z N r).1.d_obs = some xs ∧
      ((p.generate z N r).1.estimate_mean_distance t0 t1).2 =
        Except.ok (PyFloat.val (xs.sum / xs.length), (t1 - t0) * 1000) := by
  rw [generate_nonneg_eq p z N r (le_of_lt hN)]
  refine ⟨_, ?_, rfl, ?_⟩
  · have : N.toNat ≠ 0 := by omega
    simp [List.map_eq_nil_iff, List.range_eq_nil, this]
  · have hne : ¬ (((List.range N.toNat).map z).map
        (fun zi => p.distance + (r * p.distance) * zi)).isEmpty = true := by
      have : N.toNat ≠ 0 := by omega
      simp [List.isEmpty_iff, List.map_eq_nil_iff, List.range_eq_nil, this]
    simp only [StellarPopulation.estimate_mean_distance, npMean]
    rw [if_neg hne]

/-- C3: each stored observation is the true distance plus (r * distance)
times the corresponding deviate from the random source; with r = 0 every
observation equals the true distance exactly. -/
theorem generate_observations_are_noisy_distance
    (p : StellarPopulation) (z : ℕ → ℚ) (N : ℤ) (r : ℚ) (hN : 0 ≤ N) :
    ∃ obs : List ℚ,
      (p.generate z N r).1.d_obs = some obs ∧
      (obs.length : ℤ) = N ∧
      (∀ (i : ℕ) (hi : i < obs.length), obs[i] = p.distance + (r * p.distance) * z i) ∧
      (r = 0 → ∀ x ∈ obs, x = p.distance) := by
  rw [generate_nonneg_eq p z N r hN]
  refine ⟨_, rfl, ?_, ?_, ?_⟩
  · simp [Int.toNat_of_nonneg hN]
  · intro i hi
    simp
  · rintro rfl x hx
    simp at hx
    obtain ⟨i, hi, rfl⟩ := hx
    ring

/-- C4: with the deviate stream fixed (the seeded random source), generate
depends only on the stored distance and its arguments, so two populations
with equal distance produce bit-identical observation sequences; without
fixing the stream the output is not determined, witnessed by two streams
that give different observations. -/
theorem generate_bitwise_deterministic_under_shared_stream
    (p1 p2 : StellarPopulation) (z : ℕ → ℚ) (N : ℤ) (r : ℚ)
    (hdist : p1.distance = p2.distance) (hN : 0 ≤ N) :
    (p1.generate z N r).1.d_obs = (p2.generate z N r).1.d_obs ∧
    ∃ w1 w2 : ℕ → ℚ,
      ((StellarPopulation.init 1).generate w1 1 1).1.d_obs ≠
        ((StellarPopulation.init 1).generate w2 1 1).1.d_obs := by
  constructor
  · rw [generate_nonneg_eq p1 z N r hN, generate_nonneg_eq p2 z N r hN]
    simp [hdist]
  · refine ⟨fun _ => 0, fun _ => 1, ?_⟩
    rw [generate_nonneg_eq _ _ 1 1 (by norm_num),
      generate_nonneg_eq _ _ 1 1 (by norm_num)]
    simp [StellarPopulation.init]

/-- Witness for C2 at distance 3, zero deviates, N = 1, r = 0, clock
readings 0 and 2 seconds. -/
theorem estimate_mean_returns_mean_and_elapsed_ms_witness :
    (0 : ℤ) < 1 ∧
    (∃ xs : List ℚ, xs ≠ [] ∧
      ((StellarPopulation.init 3).generate (fun _ => 0) 1 0).1.d_obs = some xs ∧
      (((StellarPopulation.init 3).generate (fun _ => 0) 1 0).1.estimate_mean_distance 0 2).2 =
        Except.ok (PyFloat.val (xs.sum / xs.length), (2 - 0) * 1000)) :=
  ⟨by norm_num,
    estimate_mean_returns_mean_and_elapsed_ms (StellarPopulation.init 3)
      (fun _ => 0) 1 0 0 2 (by norm_num)⟩

/-- Witness for C3 at distance 3, all-one deviates, N = 1, r = 1/2. -/
theorem generate_observations_are_noisy_distance_witness :
    (0 : ℤ) ≤ 1 ∧
    (∃ obs : List ℚ,
      ((StellarPopulation.init 3).generate (fun _ => 1) 1 (1/2)).1.d_obs = some obs ∧
      (obs.length : ℤ) = 1 ∧
      (∀ (i : ℕ) (hi : i < obs.length),
        obs[i] = (StellarPopulation.init 3).distance +
          ((1/2) * (StellarPopulation.init 3).distance) * (fun _ => (1:ℚ)) i) ∧
      ((1:ℚ)/2 = 0 → ∀ x ∈ obs, x = (StellarPopulation.init 3).distance)) :=
  ⟨by norm_num,
    generate_observations_are_noisy_distance (StellarPopulation.init 3)
      (fun _ => 1) 1 (1/2) (by norm_num)⟩

/-- Witness for C4 at two populations of distance 2, shared zero deviate
stream, N = 1, r = 1. -/
theorem generate_bitwise_deterministic_under_shared_stream_witness :
    (StellarPopulation.init 2).distance = (StellarPopulation.init 2).distance ∧
    (0 : ℤ) ≤ 1 ∧
    (((StellarPopulation.init 2).generate (fun _ => 0) 1 1).1.d_obs =
      ((StellarPopulation.init 2).generate (fun _ => 0) 1 1).1.d_obs ∧
    ∃ w1 w2 : ℕ → ℚ,
      ((StellarPopulation.init 1).generate w1 1 1).1.d_obs ≠
        ((StellarPopulation.init 1).generate w2 1 1).1.d_obs) :=
  ⟨rfl, by norm_num,
    generate_bitwise_deterministic_under_shared_stream (StellarPopulation.init 2)
      (StellarPopulation.init 2) (fun _ => 0) 1 1 rfl (by norm_num)⟩

/-- C5 counterexample: generate(0, 1/10) leaves an empty sample, and the
following estimate_mean_distance call does not fail at all: it returns
normally with NumPy's NaN mean (the division by zero is performed inside
np.mean); no EmptySample guard exists in the code. -/
theorem estimate_mean_after_generate_zero_cex :
    (((StellarPopulation.init 3).generate (fun _ => 0) 0 (1/10)).1.d_obs = some []) ∧
    ((((StellarPopulation.init 3).generate (fun _ => 0) 0 (1/10)).1.estimate_mean_distance
        0 0).2 = Except.ok (PyFloat.nan, 0)) := by
  constructor
  · rw [generate_nonneg_eq _ _ 0 _ le_rfl]
    simp
  · rw [generate_nonneg_eq _ _ 0 _ le_rfl]
    simp [StellarPopulation.estimate_mean_distance, npMean]

/-- C5 amended: generate(0, r) yields an empty observed-distance sequence,
and a subsequent estimate_mean_distance call succeeds, returning the NaN
that np.mean produces on an empty array together with the elapsed time —
it is not guarded and raises no error. -/
theorem generate_zero_empty_and_estimate_returns_nan
    (p : StellarPopulation) (z : ℕ → ℚ) (r t0 t1 : ℚ) :
    (p.generate z 0 r).1.d_obs = some [] ∧
    ((p.generate z 0 r).1.estimate_mean_distance t0 t1).2 =
      Except.ok (PyFloat.nan, (t1 - t0) * 1000) := by
  rw [generate_nonneg_eq p z 0 r le_rfl]
  constructor
  · simp
  · simp [StellarPopulation.estimate_mean_distance, npMean]

/-- C6: on a freshly constructed population, on which generate has never
run, estimate_mean_distance fails — reading the absent d_obs attribute
raises AttributeError, the code's realisation of the NotReady precondition
failure — rather than returning a value. -/
theorem estimate_mean_before_generate_fails (d t0 t1 : ℚ) :
    ((StellarPopulation.init d).estimate_mean_distance t0 t1).2 =
      Except.error PyError.attributeError := rfl

/-- C7 counterexample: generate(1, -1/10) with a negative rms fractional
error succeeds outright (second component none, i.e. Python returns None
and raises nothing), contradicting the claim that it fails with
InvalidParameter. -/
theorem generate_negative_rms_succeeds_cex :
    ((StellarPopulation.init 3).generate (fun _ => 0) 1 (-(1/10))).2 = none ∧
    ((StellarPopulation.init 3).generate (fun _ => 0) 1 (-(1/10))).1.d_obs = some [3] := by
  constructor
  · rw [generate_nonneg_eq _ _ 1 _ (by norm_num)]
  · rw [generate_nonneg_eq _ _ 1 _ (by norm_num)]
    simp [StellarPopulation.init, List.range_succ]

/-- C7 amended: generate performs no parameter validation of its own; the
call raises precisely when N is negative — the ValueError coming from
np.random.randn on a negative dimension — and succeeds for every N ≥ 0
regardless of the sign of rms_error. -/
theorem generate_raises_iff_negative_N
    (p : StellarPopulation) (z : ℕ → ℚ) (N : ℤ) (r : ℚ) :
    (p.generate z N r).2 = if N < 0 then some PyError.valueError else none := by
  rw [StellarPopulation.generate]
  by_cases h : N < 0 <;> simp [h]

/-- C8 counterexample: the constructor accepts -1.0 and produces a
population object with stored distance -1 and no observations — it does not
fail with InvalidParameter (or at all). -/
theorem construct_negative_distance_succeeds_cex :
    (StellarPopulation.init (-1)).distance = -1 ∧
    (StellarPopulation.init (-1)).d_obs = none ∧
    (StellarPopulation.init (-1)).id = none :=
  ⟨rfl, rfl, rfl⟩

/-- C8 amended: construction is total and unvalidated: for every distance,
including non-positive ones, it succeeds and stores the given value with no
observations. -/
theorem init_stores_distance_unvalidated (d : ℚ) :
    (StellarPopulation.init d).distance = d ∧
    (StellarPopulation.init d).d_obs = none ∧
    (StellarPopulation.init d).id = none :=
  ⟨rfl, rfl, rfl⟩

/-- C9: frame conditions — generate (raising or not) never changes the
stored true distance, and estimate_mean_distance returns the population
state entirely unchanged (its only effects are the timer reads, which are
external inputs here). -/
theorem generate_and_estimate_frame
    (p : StellarPopulation) (z : ℕ → ℚ) (N : ℤ) (r t0 t1 : ℚ) :
    (p.generate z N r).1.distance = p.distance ∧
    (p.estimate_mean_distance t0 t1).1 = p := by
  constructor
  · rw [StellarPopulation.generate]
    by_cases h : N < 0 <;> simp [h]
  · cases hp : p.d_obs <;>
      simp [StellarPopulation.estimate_mean_distance, hp]

/-- C10: the source's def line generate(self, N=1000, rms_error=0.1) makes
a no-argument call identical to generate(1000, 0.1); such a call succeeds
and leaves exactly 1000 observations, with N = 1000 and rms_error = 1/10
stored. -/
theorem generate_default_is_generate_1000_tenth
    (p : StellarPopulation) (z : ℕ → ℚ) :
    p.generate_default z = p.generate z 1000 (1/10) ∧
    ∃ obs, (p.generate_default z).1.d_obs = some obs ∧ obs.length = 1000 ∧
      (p.generate_default z).1.N = some 1000 ∧
      (p.generate_default z).1.rms_error = some (1/10) := by
  constructor
  · rw [StellarPopulation.generate_default]
    norm_num
  · rw [StellarPopulation.generate_default,
      generate_nonneg_eq p z 1000 0.1 (by norm_num)]
    refine ⟨_, rfl, ?_, rfl, ?_⟩
    · simp
    · norm_num
